import Mathlib

/-
Verification development for the foxysafe backup tool.

Shallow embedding of:
  src/foxysafe/git/clone.py        (clone workers and orchestrators)
  src/foxysafe/gitlab/api.py       (discovery and group recursion)
  src/foxysafe/gitlab/download.py  (attachment reference matching and URL rewriting)
  src/foxysafe/entrypoints.py      (top-level exit codes)

External effects (git transport, the forge REST API, the filesystem) are
modelled as explicit inputs: a worker's environment records whether each
external step would succeed, and the forge API is a record of functions
returning either a value or the exception the Python bindings would raise.
-/

namespace Foxysafe

/-! ## Python dict model

Python dicts keep insertion order; assigning to an existing key replaces the
value in place, assigning a fresh key appends.  `dictUpdate` is that
semantics on an association list (all dicts in the source are built from
empty ones via updates, so keys stay unique). -/

abbrev Dict (K V : Type) := List (K × V)

def dictUpdate {K V : Type} [DecidableEq K] : Dict K V → K → V → Dict K V
  | [], k, v => [(k, v)]
  | kv :: rest, k, v => if kv.1 = k then (k, v) :: rest else kv :: dictUpdate rest k v

def dictKeys {K V : Type} (d : Dict K V) : List K := d.map Prod.fst

def dictValues {K V : Type} (d : Dict K V) : List V := d.map Prod.snd

def dictCountKey {K V : Type} [DecidableEq K] (d : Dict K V) (k : K) : Nat :=
  (d.filter (fun kv => kv.1 = k)).length

/-! ## git/clone.py: clone workers

`clone_project` (lines 14-112) is a process-pool worker.  Everything it
observes from the outside world is collected in `CloneEnv`:

* `cloneOk`            – does `git.Repo.clone_from` succeed (line 47)?
* `submodules`         – the submodule URLs of the cloned repository (line 59);
* `submoduleUpdateOk`  – does `repository.submodule_update` succeed (line 61)?
* `remoteBranches`     – the stripped branch list parsed from
                         `git branch --all` output (lines 67-68);
* `pullOk`             – do `git fetch --all` and `git pull --all` succeed
                         (lines 83-84)?
* `abort`              – `some s` when a `KeyboardInterrupt` or unexpected
                         exception reaches the outer handlers (lines 105-110)
                         after `s` steps of the body completed; `none` when
                         the body runs to completion.

The outer handlers set `result["success"] = False` and the `finally` clause
returns the partially filled result dict, so the worker is total. -/

structure CloneEnv where
  name : String
  web_url : String
  id : Int
  target_path : String
  cloneOk : Bool
  submodules : List String
  submoduleUpdateOk : Bool
  remoteBranches : List String
  pullOk : Bool
  abort : Option Nat
deriving DecidableEq

/-- Result dict of `clone_project` (lines 20-31).  The skeleton initialises
`is_submodules_updated`; the submodule-update branch (line 62) instead
assigns the fresh key `is_submodules_cloned`, which we model as an extra
field that starts out false. -/
structure CloneResult where
  project_name : String := ""
  project_url : String := ""
  project_id : Int := 0
  project_path : String := ""
  is_cloned : Bool := false
  submodules : List String := []
  is_submodules_updated : Bool := false
  branches : List String := []
  is_branches_updated : Bool := false
  success : Bool := false
  is_submodules_cloned : Bool := false
deriving DecidableEq

/-- State of `clone_project`'s result dict after the first `stage` steps of
the body: 0 = nothing yet, 1 = metadata recorded (lines 35-42), 2 = clone
attempted (lines 46-54), 3 = submodule step done (lines 56-65), 4 = branch
step done (lines 67-92), 5 and up = sidecar written and `success` computed
(lines 94-103).  When the clone failed the repository is `None` and the
whole `if repository:` block is skipped. -/
def clone_steps (env : CloneEnv) (stage : Nat) : CloneResult :=
  let r0 : CloneResult := {}
  if stage = 0 then r0 else
  let r1 := { r0 with
    project_name := env.name
    project_url := env.web_url
    project_id := env.id
    project_path := env.target_path }
  if stage = 1 then r1 else
  let r2 := if env.cloneOk then { r1 with is_cloned := true } else r1
  if stage = 2 then r2 else
  if ¬ env.cloneOk then r2 else
  let r3 :=
    if ¬ env.submodules.isEmpty then
      let ra := { r2 with submodules := env.submodules }
      if env.submoduleUpdateOk then { ra with is_submodules_cloned := true } else ra
    else r2
  if stage = 3 then r3 else
  let rb := { r3 with branches := env.remoteBranches }
  let r4 :=
    if env.remoteBranches.length > 1 then
      if env.pullOk then { rb with is_branches_updated := true } else rb
    else { rb with is_branches_updated := true }
  if stage = 4 then r4 else
  { r4 with success :=
      r4.is_cloned && ((!r4.submodules.isEmpty) == r4.is_submodules_updated)
        && r4.is_branches_updated }

/-- Worker `clone_project` (clone.py lines 14-112).  On an abort the outer
handlers force `success := False` over whatever was recorded so far and the
`finally` clause still returns the dict. -/
def clone_project (env : CloneEnv) : CloneResult :=
  match env.abort with
  | none => clone_steps env 5
  | some s => { clone_steps env s with success := false }

/-- Result dict of `clone_wiki` (lines 121-132), same shape with wiki-named
metadata keys and the same `is_submodules_cloned` stray key (line 162). -/
structure WikiCloneResult where
  wiki_name : String := ""
  wiki_url : String := ""
  wiki_id : Int := 0
  wiki_path : String := ""
  is_cloned : Bool := false
  submodules : List String := []
  is_submodules_updated : Bool := false
  branches : List String := []
  is_branches_updated : Bool := false
  success : Bool := false
  is_submodules_cloned : Bool := false
deriving DecidableEq

/-- State of `clone_wiki`'s result dict after `stage` steps; the body
(lines 115-209) duplicates `clone_project` except that the wiki name gains
a " Wiki" suffix, the clone URL a ".wiki.git" suffix (lines 137-138), and
there is no sidecar JSON write. -/
def clone_wiki_steps (env : CloneEnv) (stage : Nat) : WikiCloneResult :=
  let r0 : WikiCloneResult := {}
  if stage = 0 then r0 else
  let r1 := { r0 with
    wiki_name := env.name ++ " Wiki"
    wiki_url := env.web_url ++ ".wiki.git"
    wiki_id := env.id
    wiki_path := env.target_path }
  if stage = 1 then r1 else
  let r2 := if env.cloneOk then { r1 with is_cloned := true } else r1
  if stage = 2 then r2 else
  if ¬ env.cloneOk then r2 else
  let r3 :=
    if ¬ env.submodules.isEmpty then
      let ra := { r2 with submodules := env.submodules }
      if env.submoduleUpdateOk then { ra with is_submodules_cloned := true } else ra
    else r2
  if stage = 3 then r3 else
  let rb := { r3 with branches := env.remoteBranches }
  let r4 :=
    if env.remoteBranches.length > 1 then
      if env.pullOk then { rb with is_branches_updated := true } else rb
    else { rb with is_branches_updated := true }
  if stage = 4 then r4 else
  { r4 with success :=
      r4.is_cloned && ((!r4.submodules.isEmpty) == r4.is_submodules_updated)
        && r4.is_branches_updated }

/-- Worker `clone_wiki` (clone.py lines 115-209). -/
def clone_wiki (env : CloneEnv) : WikiCloneResult :=
  match env.abort with
  | none => clone_wiki_steps env 5
  | some s => { clone_wiki_steps env s with success := false }

/-- Result dict of `clone_snippet` (lines 218-225). -/
structure SnippetCloneResult where
  snippet_title : String := ""
  snippet_url : String := ""
  snippet_id : Int := 0
  snippet_path : String := ""
  is_cloned : Bool := false
  success : Bool := false
deriving DecidableEq

structure SnippetCloneEnv where
  title : String
  web_url : String
  id : Int
  target_path : String
  cloneOk : Bool
  abort : Option Nat
deriving DecidableEq

/-- State of `clone_snippet`'s result dict after `stage` steps: 1 = metadata
(lines 229-236), 2 = clone attempted (lines 240-245; the clone URL is
`web_url` with the dash path segment collapsed, which does not show up in
the result), 3 =
sidecar JSON written (lines 248-249, no result field), 4 and up = `success`
computed (line 251). -/
def clone_snippet_steps (env : SnippetCloneEnv) (stage : Nat) : SnippetCloneResult :=
  let r0 : SnippetCloneResult := {}
  if stage = 0 then r0 else
  let r1 := { r0 with
    snippet_title := env.title
    snippet_url := env.web_url
    snippet_id := env.id
    snippet_path := env.target_path }
  if stage = 1 then r1 else
  let r2 := if env.cloneOk then { r1 with is_cloned := true } else r1
  if stage = 2 then r2 else
  if ¬ env.cloneOk then r2 else
  if stage = 3 then r2 else
  { r2 with success := r2.is_cloned }

/-- Worker `clone_snippet` (clone.py lines 212-260). -/
def clone_snippet (env : SnippetCloneEnv) : SnippetCloneResult :=
  match env.abort with
  | none => clone_snippet_steps env 4
  | some s => { clone_snippet_steps env s with success := false }

/-! ## git/clone.py: orchestrators

`clone_projects` / `clone_wikis` / `clone_snippets` (lines 263-346) each
build `mapped_args` from the input dict's value enumeration, run
`pool.map(worker, mapped_args)` and dump the resulting list to
`results.json`.  `multiprocessing.Pool.map` returns results in the order of
its input iterable regardless of completion order, so the result list is
the pointwise map of the worker over the inputs. -/

def pool_processes (cpu_count : Int) : Int := min 1 (cpu_count - 2)

def clone_projects_results (envs : List CloneEnv) : List CloneResult :=
  envs.map clone_project

def clone_wikis_results (envs : List CloneEnv) : List WikiCloneResult :=
  envs.map clone_wiki

def clone_snippets_results (envs : List SnippetCloneEnv) : List SnippetCloneResult :=
  envs.map clone_snippet

/-! ## Claim C1 -/

/-- Environment of a clone attempt in which everything the claim mentions
succeeds: the clone works, the repository declares one submodule whose
update succeeds, and there is a single remote branch so branches are
trivially considered updated. -/
def envC1 : CloneEnv :=
  { name := "proj"
    web_url := "https://git.example/org/proj.git"
    id := 1
    target_path := "/backup/org/proj"
    cloneOk := true
    submodules := ["https://git.example/org/sub.git"]
    submoduleUpdateOk := true
    remoteBranches := ["origin/main"]
    pullOk := true
    abort := none }

/-- Claim C1 (code bug): for a project that is cloned, whose nonempty
submodule list is successfully updated (witnessed by the stray
`is_submodules_cloned` key the update branch actually sets), and whose
branches are updated, the derived `success` flag is false, although the
claim and the spec invariant require it to be true.  The update branch
assigns `is_submodules_cloned` while the success formula reads the
never-assigned `is_submodules_updated`. -/
theorem C1_success_flag_code_bug :
    (clone_project envC1).is_cloned = true
      ∧ (clone_project envC1).submodules ≠ []
      ∧ (clone_project envC1).is_submodules_cloned = true
      ∧ (clone_project envC1).is_submodules_updated = false
      ∧ (clone_project envC1).is_branches_updated = true
      ∧ (clone_project envC1).success = false := by
  decide

/-! ## Claim C2 -/

/-- Claim C2 (code bug): the orchestrators size their pool with
`min(1, os.cpu_count() - 2)` (clone.py lines 275, 303, 333).  On a machine
with 8 available cores this yields 1 worker, not the max(1, 8 - 2) = 6
workers the claim (and spec) state. -/
theorem C2_pool_size_code_bug :
    pool_processes 8 = 1 ∧ max (1 : Int) (8 - 2) = 6 ∧ pool_processes 8 ≠ max 1 (8 - 2) := by
  decide

/-! ## Claim C3 -/

/-- Any aborted `clone_project` worker still returns a result dict and that
dict records failure. -/
theorem clone_project_abort_success_false (env : CloneEnv)
    (h : env.abort.isSome = true) : (clone_project env).success = false := by
  rcases henv : env.abort with _ | s
  · rw [henv] at h; simp at h
  · simp [clone_project, henv]

/-- Any aborted `clone_wiki` worker still returns a failing result dict. -/
theorem clone_wiki_abort_success_false (env : CloneEnv)
    (h : env.abort.isSome = true) : (clone_wiki env).success = false := by
  rcases henv : env.abort with _ | s
  · rw [henv] at h; simp at h
  · simp [clone_wiki, henv]

/-- Any aborted `clone_snippet` worker still returns a failing result dict. -/
theorem clone_snippet_abort_success_false (env : SnippetCloneEnv)
    (h : env.abort.isSome = true) : (clone_snippet env).success = false := by
  rcases henv : env.abort with _ | s
  · rw [henv] at h; simp at h
  · simp [clone_snippet, henv]

/-- Claim C3 (confirmed): for every input list of one kind, the results
list dumped to `results.json` has exactly one entry per input item, and an
item whose worker is interrupted or hits an unexpected error still yields
a result with `success = false` instead of being dropped. -/
theorem C3_no_item_lost
    (penvs : List CloneEnv) (wenvs : List CloneEnv) (senvs : List SnippetCloneEnv) :
    (clone_projects_results penvs).length = penvs.length
      ∧ (clone_wikis_results wenvs).length = wenvs.length
      ∧ (clone_snippets_results senvs).length = senvs.length
      ∧ (∀ i (hi : i < penvs.length) (hr : i < (clone_projects_results penvs).length),
          (penvs.get ⟨i, hi⟩).abort.isSome = true →
            ((clone_projects_results penvs).get ⟨i, hr⟩).success = false)
      ∧ (∀ i (hi : i < wenvs.length) (hr : i < (clone_wikis_results wenvs).length),
          (wenvs.get ⟨i, hi⟩).abort.isSome = true →
            ((clone_wikis_results wenvs).get ⟨i, hr⟩).success = false)
      ∧ (∀ i (hi : i < senvs.length) (hr : i < (clone_snippets_results senvs).length),
          (senvs.get ⟨i, hi⟩).abort.isSome = true →
            ((clone_snippets_results senvs).get ⟨i, hr⟩).success = false) := by
  refine ⟨List.length_map .., List.length_map .., List.length_map .., ?_, ?_, ?_⟩
  · intro i hi hr habort
    have hget : (clone_projects_results penvs).get ⟨i, hr⟩
        = clone_project (penvs.get ⟨i, hi⟩) := by
      simp [clone_projects_results]
    rw [hget]
    exact clone_project_abort_success_false _ habort
  · intro i hi hr habort
    have hget : (clone_wikis_results wenvs).get ⟨i, hr⟩
        = clone_wiki (wenvs.get ⟨i, hi⟩) := by
      simp [clone_wikis_results]
    rw [hget]
    exact clone_wiki_abort_success_false _ habort
  · intro i hi hr habort
    have hget : (clone_snippets_results senvs).get ⟨i, hr⟩
        = clone_snippet (senvs.get ⟨i, hi⟩) := by
      simp [clone_snippets_results]
    rw [hget]
    exact clone_snippet_abort_success_false _ habort

/-- Five-item input where item 3 (index 2) hits an unexpected error right
after its metadata was recorded. -/
def fiveEnvs : List CloneEnv :=
  [ { envC1 with id := 1, submodules := [], abort := none }
  , { envC1 with id := 2, submodules := [], abort := none }
  , { envC1 with id := 3, submodules := [], abort := some 1 }
  , { envC1 with id := 4, submodules := [], abort := none }
  , { envC1 with id := 5, submodules := [], abort := none } ]

/-- Witness for C3: a pool over 5 items where item 3 raises still returns
5 results and item 3 is marked unsuccessful. -/
theorem C3_no_item_lost_witness :
    (clone_projects_results fiveEnvs).length = fiveEnvs.length
      ∧ ((clone_projects_results fiveEnvs).get ⟨2, by decide⟩).success = false := by
  have h := C3_no_item_lost fiveEnvs [] []
  exact ⟨h.1, h.2.2.2.1 2 (by decide) (by decide) (by decide)⟩

/-! ## Claim C10 -/

/-- Claim C10 (confirmed): the results lists of all three orchestrators
preserve input order: the i-th result is the worker's record for the i-th
input item (`pool.map` returns results in input order). -/
theorem C10_results_preserve_order
    (penvs : List CloneEnv) (wenvs : List CloneEnv) (senvs : List SnippetCloneEnv) :
    (∀ i (hi : i < penvs.length) (hr : i < (clone_projects_results penvs).length),
        (clone_projects_results penvs).get ⟨i, hr⟩ = clone_project (penvs.get ⟨i, hi⟩))
      ∧ (∀ i (hi : i < wenvs.length) (hr : i < (clone_wikis_results wenvs).length),
          (clone_wikis_results wenvs).get ⟨i, hr⟩ = clone_wiki (wenvs.get ⟨i, hi⟩))
      ∧ (∀ i (hi : i < senvs.length) (hr : i < (clone_snippets_results senvs).length),
          (clone_snippets_results senvs).get ⟨i, hr⟩ = clone_snippet (senvs.get ⟨i, hi⟩)) := by
  refine ⟨?_, ?_, ?_⟩
  · intro i hi hr; simp [clone_projects_results]
  · intro i hi hr; simp [clone_wikis_results]
  · intro i hi hr; simp [clone_snippets_results]

/-- Witness for C10 at the concrete five-item input: the third result is
the worker output for the third input. -/
theorem C10_results_preserve_order_witness :
    (clone_projects_results fiveEnvs).get ⟨2, by decide⟩
      = clone_project (fiveEnvs.get ⟨2, by decide⟩) :=
  (C10_results_preserve_order fiveEnvs [] []).1 2 (by decide) (by decide)

/-! ## gitlab/api.py: forge objects and API

The python-gitlab calls used by `get_gitlab_items` and `_recurse_group` are
modelled as a record of functions returning either a value or the exception
class the binding would raise (`GitlabGetError` for a failed get — the
NotFoundError of the spec — and `GitlabListError` for a failed listing).
`has_wikis_manager` models `hasattr(obj, "wikis")` (api.py lines 94, 102). -/

inductive GitlabError where
  | getError
  | listError
deriving DecidableEq

inductive Res (ε α : Type) where
  | ok (a : α)
  | err (e : ε)
deriving DecidableEq

structure GroupInfo where
  id : Int
  name : String
  has_wikis_manager : Bool := true
deriving DecidableEq

structure ProjectInfo where
  id : Int
  name : String
  has_wikis_manager : Bool := true
deriving DecidableEq

structure IssueInfo where
  iid : Int
  title : String
deriving DecidableEq

structure SnippetInfo where
  id : Int
  title : String
deriving DecidableEq

structure GitlabApi where
  groups_get : Int → Res GitlabError GroupInfo
  group_subgroups : Int → Res GitlabError (List Int)
  group_projects : Int → Res GitlabError (List ProjectInfo)
  projects_get : Int → Res GitlabError ProjectInfo
  user_projects : Res GitlabError (List ProjectInfo)
  group_wikis : Int → Res GitlabError (List String)
  project_wikis : Int → Res GitlabError (List String)
  project_issues : Int → Res GitlabError (List IssueInfo)
  snippets_list : Res GitlabError (List SnippetInfo)

/-! ## gitlab/api.py: `_recurse_group` (lines 131-177)

The source recursion carries no visited set and no depth bound, so over a
general (possibly cyclic) subgroup graph it need not terminate.  The
embedding makes that explicit with a fuel parameter: `none` means the
recursion is still running when the fuel runs out; every recursive call
spends one unit, so a run of the Python function that terminates is
reproduced exactly by any sufficiently large fuel.  Errors raised by the
unwrapped API calls (`subgroups.list`, `groups.get`, `projects.list`)
propagate. -/

def recurse_subgroups (api : GitlabApi)
    (recurse : GroupInfo → Dict Int GroupInfo → Dict Int ProjectInfo →
      Option (Res GitlabError (Dict Int GroupInfo × Dict Int ProjectInfo))) :
    List Int → Dict Int GroupInfo → Dict Int ProjectInfo →
      Option (Res GitlabError (Dict Int GroupInfo × Dict Int ProjectInfo))
  | [], gd, pd => some (.ok (gd, pd))
  | sid :: rest, gd, pd =>
    match api.groups_get sid with
    | .err e => some (.err e)
    | .ok sg =>
      match recurse sg gd pd with
      | none => none
      | some (.err e) => some (.err e)
      | some (.ok s) => recurse_subgroups api recurse rest s.1 s.2

def recurse_group (api : GitlabApi) :
    Nat → GroupInfo → Dict Int GroupInfo → Dict Int ProjectInfo →
      Option (Res GitlabError (Dict Int GroupInfo × Dict Int ProjectInfo))
  | 0, _, _, _ => none
  | fuel + 1, group, gd, pd =>
    match api.group_subgroups group.id with
    | .err e => some (.err e)
    | .ok subIds =>
      match recurse_subgroups api (fun g a b => recurse_group api fuel g a b) subIds
          (dictUpdate gd group.id group) pd with
      | none => none
      | some (.err e) => some (.err e)
      | some (.ok s) =>
        match api.group_projects group.id with
        | .err e => some (.err e)
        | .ok ps => some (.ok (s.1, ps.foldl (fun d p => dictUpdate d p.id p) s.2))

/-- Termination of the group walk started at `g`: some fuel suffices for the
recursion to come back with an answer. -/
def recursionTerminates (api : GitlabApi) (g : GroupInfo) : Prop :=
  ∃ fuel r, recurse_group api fuel g [] [] = some r

/-- A forge whose group 1 lists itself as its own subgroup: the smallest
cyclic group graph. -/
def cycGroup : GroupInfo := { id := 1, name := "cyc" }

def cycApi : GitlabApi :=
  { groups_get := fun _ => .ok cycGroup
  , group_subgroups := fun _ => .ok [1]
  , group_projects := fun _ => .ok []
  , projects_get := fun _ => .err .getError
  , user_projects := .ok []
  , group_wikis := fun _ => .err .listError
  , project_wikis := fun _ => .err .listError
  , project_issues := fun _ => .err .listError
  , snippets_list := .ok [] }

/-- On the cyclic forge the walk never finishes, whatever the fuel. -/
theorem cyc_recurse_group_none :
    ∀ fuel (gd : Dict Int GroupInfo) (pd : Dict Int ProjectInfo),
      recurse_group cycApi fuel cycGroup gd pd = none := by
  intro fuel
  induction fuel with
  | zero => intro gd pd; rfl
  | succ n ih =>
    intro gd pd
    have h1 : cycApi.group_subgroups cycGroup.id = Res.ok [1] := rfl
    have h2 : cycApi.groups_get 1 = Res.ok cycGroup := rfl
    simp only [recurse_group, h1, recurse_subgroups, h2, ih]

/-- Claim C4 counterexample: `_recurse_group` does not treat already-visited
group IDs as terminal; on a group graph with a cycle (group 1 its own
subgroup) the walk does not terminate for any recursion budget. -/
theorem C4_cycle_not_terminating : recursionTerminates cycApi cycGroup ↔ False := by
  constructor
  · rintro ⟨fuel, r, h⟩
    rw [cyc_recurse_group_none fuel [] []] at h
    exact Option.noConfusion h
  · exact False.elim

/-! ## Tree-structured reading of `_recurse_group`

When the forge's group hierarchy is a tree — the case the source assumes —
the API answers seen by `_recurse_group` are exactly a `GroupTree`:
each node carries the group object, the projects `group.projects.list`
returns, and the subtrees reached through `group.subgroups.list` and
`api.groups.get`.  `recurse_group_tree` is the same algorithm reading that
tree (subgroups first, then the group's own projects, exactly as in
api.py lines 151-175). -/

mutual
inductive GroupTree where
  | node (info : GroupInfo) (projects : List ProjectInfo) (subs : GroupForest)
inductive GroupForest where
  | nil
  | cons (t : GroupTree) (ts : GroupForest)
end

mutual
def recurse_group_tree (t : GroupTree) (gd : Dict Int GroupInfo) (pd : Dict Int ProjectInfo) :
    Dict Int GroupInfo × Dict Int ProjectInfo :=
  match t with
  | .node g ps subs =>
    let s := recurse_group_forest subs (dictUpdate gd g.id g) pd
    (s.1, ps.foldl (fun d p => dictUpdate d p.id p) s.2)

def recurse_group_forest (f : GroupForest) (gd : Dict Int GroupInfo) (pd : Dict Int ProjectInfo) :
    Dict Int GroupInfo × Dict Int ProjectInfo :=
  match f with
  | .nil => (gd, pd)
  | .cons t ts =>
    let s := recurse_group_tree t gd pd
    recurse_group_forest ts s.1 s.2
end

mutual
def treeProjectIds (t : GroupTree) : List Int :=
  match t with
  | .node _ ps subs => forestProjectIds subs ++ ps.map (fun p => p.id)

def forestProjectIds (f : GroupForest) : List Int :=
  match f with
  | .nil => []
  | .cons t ts => treeProjectIds t ++ forestProjectIds ts
end

theorem mem_dictKeys_update {K V : Type} [DecidableEq K]
    (d : Dict K V) (k : K) (v : V) (x : K) :
    x ∈ dictKeys (dictUpdate d k v) ↔ x = k ∨ x ∈ dictKeys d := by
  induction d with
  | nil =>
    simp only [dictUpdate, dictKeys, List.map_cons, List.map_nil, List.mem_singleton,
      List.not_mem_nil, or_false]
  | cons kv rest ih =>
    simp only [dictUpdate]
    by_cases h : kv.1 = k
    · subst h
      rw [if_pos rfl]
      simp only [dictKeys, List.map_cons, List.mem_cons]
      tauto
    · rw [if_neg h]
      simp only [dictKeys, List.map_cons, List.mem_cons]
      have ih2 : x ∈ List.map Prod.fst (dictUpdate rest k v) ↔
          x = k ∨ x ∈ List.map Prod.fst rest := ih
      rw [ih2]
      tauto

theorem mem_dictKeys_foldl_update (ps : List ProjectInfo) :
    ∀ (d : Dict Int ProjectInfo) (x : Int),
      x ∈ dictKeys (ps.foldl (fun d p => dictUpdate d p.id p) d) ↔
        x ∈ dictKeys d ∨ x ∈ ps.map (fun p => p.id) := by
  induction ps with
  | nil => simp
  | cons p rest ih =>
    intro d x
    simp only [List.foldl_cons, List.map_cons, List.mem_cons]
    rw [ih, mem_dictKeys_update]
    tauto

mutual
theorem mem_keys_recurse_group_tree (t : GroupTree) :
    ∀ (gd : Dict Int GroupInfo) (pd : Dict Int ProjectInfo) (x : Int),
      x ∈ dictKeys (recurse_group_tree t gd pd).2 ↔
        x ∈ dictKeys pd ∨ x ∈ treeProjectIds t :=
  match t with
  | .node g ps subs => by
    intro gd pd x
    simp only [recurse_group_tree, treeProjectIds, List.mem_append]
    rw [mem_dictKeys_foldl_update, mem_keys_recurse_group_forest subs]
    tauto

theorem mem_keys_recurse_group_forest (f : GroupForest) :
    ∀ (gd : Dict Int GroupInfo) (pd : Dict Int ProjectInfo) (x : Int),
      x ∈ dictKeys (recurse_group_forest f gd pd).2 ↔
        x ∈ dictKeys pd ∨ x ∈ forestProjectIds f :=
  match f with
  | .nil => by
    intro gd pd x
    simp [recurse_group_forest, forestProjectIds]
  | .cons t ts => by
    intro gd pd x
    simp only [recurse_group_forest, forestProjectIds, List.mem_append]
    rw [mem_keys_recurse_group_forest ts, mem_keys_recurse_group_tree t]
    tauto
end

/-! ## Claim C4: 3-level tree fixture, as a concrete forge API -/

def tg1 : GroupInfo := { id := 1, name := "root" }

def tg2 : GroupInfo := { id := 2, name := "mid" }

def tg3 : GroupInfo := { id := 3, name := "leaf" }

def tp (n : Int) : ProjectInfo := { id := n, name := "p" }

/-- Forge with groups 1 → 2 → 3 and two projects at each level. -/
def treeApi : GitlabApi :=
  { groups_get := fun gid => if gid = 2 then .ok tg2 else if gid = 3 then .ok tg3 else .ok tg1
  , group_subgroups := fun gid => if gid = 1 then .ok [2] else if gid = 2 then .ok [3] else .ok []
  , group_projects := fun gid =>
      if gid = 1 then .ok [tp 10, tp 11]
      else if gid = 2 then .ok [tp 20, tp 21]
      else if gid = 3 then .ok [tp 30, tp 31]
      else .ok []
  , projects_get := fun _ => .err .getError
  , user_projects := .ok []
  , group_wikis := fun _ => .err .listError
  , project_wikis := fun _ => .err .listError
  , project_issues := fun _ => .err .listError
  , snippets_list := .ok [] }

def expectedTreeGroups : Dict Int GroupInfo := [(1, tg1), (2, tg2), (3, tg3)]

def expectedTreeProjects : Dict Int ProjectInfo :=
  [(30, tp 30), (31, tp 31), (20, tp 20), (21, tp 21), (10, tp 10), (11, tp 11)]

/-- Claim C4 as amended: the walk keeps no visited set (on a cyclic graph it
does not terminate — see the counterexample); on a tree-structured
hierarchy it collects every project found at any depth into one flat map
keyed by project ID, and on the 3-level fixture with projects at each level
it terminates and the result size equals the total number of projects. -/
theorem C4_tree_walk_collects_all_projects :
    (∀ (t : GroupTree) (gd : Dict Int GroupInfo) (pd : Dict Int ProjectInfo) (x : Int),
        x ∈ dictKeys (recurse_group_tree t gd pd).2 ↔
          x ∈ dictKeys pd ∨ x ∈ treeProjectIds t)
      ∧ recurse_group treeApi 4 tg1 [] [] =
          some (.ok (expectedTreeGroups, expectedTreeProjects))
      ∧ (dictKeys expectedTreeProjects).length = 6 :=
  ⟨mem_keys_recurse_group_tree, by decide, by decide⟩

/-! ## gitlab/api.py: `get_gitlab_items` (lines 30-128)

Each phase is a fold over the requested IDs or discovered objects.  The
error discipline mirrors the source exactly: the group phase and the
issue/snippet phases are unwrapped (any API error propagates and aborts the
run), the explicit-project phase catches only `GitlabGetError` — keeping
the loop variable from the previous iteration, so a failing first get hits
an unbound local (`nameError`) — and the wiki probes catch only
`GitlabListError`. -/

inductive RunError where
  | api (e : GitlabError)
  | nameError
deriving DecidableEq

structure DiscoverResult where
  groups : Dict Int GroupInfo
  projects : Dict Int ProjectInfo
  wikis : Dict String (Sum GroupInfo ProjectInfo)
  issues : Dict String IssueInfo
  snippets : Dict Int SnippetInfo
deriving DecidableEq

/-- Group phase (api.py lines 62-71): `api.groups.get` is unwrapped, then
`_recurse_group` extends both dicts. -/
def discover_groups (api : GitlabApi) (fuel : Nat) :
    List Int → Dict Int GroupInfo → Dict Int ProjectInfo →
      Option (Res RunError (Dict Int GroupInfo × Dict Int ProjectInfo))
  | [], gd, pd => some (.ok (gd, pd))
  | gid :: rest, gd, pd =>
    match api.groups_get gid with
    | .err e => some (.err (.api e))
    | .ok g =>
      match recurse_group api fuel g gd pd with
      | none => none
      | some (.err e) => some (.err (.api e))
      | some (.ok s) => discover_groups api fuel rest s.1 s.2

/-- Explicit-project phase (api.py lines 73-83).  `last` is the loop
variable `project`, which survives across iterations; the two insertions
mirror the consecutive `gitlab_projects[project.id] = project` and
`gitlab_projects.update(...)` lines. -/
def discover_projects (api : GitlabApi) :
    List Int → Option ProjectInfo → Dict Int ProjectInfo →
      Res RunError (Dict Int ProjectInfo)
  | [], _, pd => .ok pd
  | pid :: rest, last, pd =>
    match api.projects_get pid with
    | .ok p =>
      discover_projects api rest (some p) (dictUpdate (dictUpdate pd p.id p) p.id p)
    | .err .getError =>
      match last with
      | none => .err .nameError
      | some p =>
        discover_projects api rest (some p) (dictUpdate (dictUpdate pd p.id p) p.id p)
    | .err .listError => .err (.api .listError)

/-- Group-wiki probe (api.py lines 92-98): catches `GitlabListError` only;
a group with a nonempty page list is recorded under the key `G<id>`. -/
def discover_group_wikis (api : GitlabApi) :
    List GroupInfo → Dict String (Sum GroupInfo ProjectInfo) →
      Res RunError (Dict String (Sum GroupInfo ProjectInfo))
  | [], wd => .ok wd
  | g :: rest, wd =>
    if g.has_wikis_manager then
      match api.group_wikis g.id with
      | .ok pages =>
        discover_group_wikis api rest
          (if pages.isEmpty then wd else dictUpdate wd ("G" ++ toString g.id) (Sum.inl g))
      | .err .listError => discover_group_wikis api rest wd
      | .err .getError => .err (.api .getError)
    else discover_group_wikis api rest wd

/-- Project-wiki probe (api.py lines 100-106), key `P<id>`. -/
def discover_project_wikis (api : GitlabApi) :
    List ProjectInfo → Dict String (Sum GroupInfo ProjectInfo) →
      Res RunError (Dict String (Sum GroupInfo ProjectInfo))
  | [], wd => .ok wd
  | p :: rest, wd =>
    if p.has_wikis_manager then
      match api.project_wikis p.id with
      | .ok pages =>
        discover_project_wikis api rest
          (if pages.isEmpty then wd else dictUpdate wd ("P" ++ toString p.id) (Sum.inr p))
      | .err .listError => discover_project_wikis api rest wd
      | .err .getError => .err (.api .getError)
    else discover_project_wikis api rest wd

/-- Issue phase (api.py lines 108-114): `api.projects.get(pid)` and
`.issues.list(all=True)` are both unwrapped, so any error aborts the run;
issues are keyed `"<projectID>/<issueNumber>"`. -/
def discover_issues (api : GitlabApi) :
    List Int → Dict String IssueInfo → Res RunError (Dict String IssueInfo)
  | [], idd => .ok idd
  | pid :: rest, idd =>
    match api.projects_get pid with
    | .err e => .err (.api e)
    | .ok _ =>
      match api.project_issues pid with
      | .err e => .err (.api e)
      | .ok issues =>
        discover_issues api rest
          (issues.foldl (fun d i => dictUpdate d (toString pid ++ "/" ++ toString i.iid) i) idd)

/-- Discovery entry point `get_gitlab_items` (api.py lines 30-128). -/
def get_gitlab_items (api : GitlabApi) (fuel : Nat)
    (gitlab_group_ids gitlab_project_ids : List Int)
    (include_personal_projects include_wikis include_issues include_snippets : Bool) :
    Option (Res RunError DiscoverResult) :=
  match discover_groups api fuel gitlab_group_ids [] [] with
  | none => none
  | some (.err e) => some (.err e)
  | some (.ok s) =>
    match discover_projects api gitlab_project_ids none s.2 with
    | .err e => some (.err e)
    | .ok pd1 =>
      match (if include_personal_projects then
               match api.user_projects with
               | .err e => Res.err (RunError.api e)
               | .ok ps => Res.ok (ps.foldl (fun d p => dictUpdate d p.id p) pd1)
             else Res.ok pd1) with
      | .err e => some (.err e)
      | .ok pd =>
        match (if include_wikis then
                 match discover_group_wikis api (dictValues s.1) [] with
                 | .err e => Res.err e
                 | .ok wd => discover_project_wikis api (dictValues pd) wd
               else Res.ok []) with
        | .err e => some (.err e)
        | .ok wikis =>
          match (if include_issues then discover_issues api (dictKeys pd) [] else Res.ok []) with
          | .err e => some (.err e)
          | .ok issues =>
            match (if include_snippets then
                     match api.snippets_list with
                     | .err e => Res.err (RunError.api e)
                     | .ok sn => Res.ok (sn.foldl (fun d x => dictUpdate d x.id x) [])
                   else Res.ok []) with
            | .err e => some (.err e)
            | .ok snippets =>
              some (.ok { groups := s.1, projects := pd, wikis := wikis
                        , issues := issues, snippets := snippets })

/-! ## Claim C6 -/

def p1c6 : ProjectInfo := { id := 1, name := "one" }

/-- Forge where project 1 exists but listing its issues raises a not-found
error. -/
def issuesFailApi : GitlabApi :=
  { groups_get := fun _ => .err .getError
  , group_subgroups := fun _ => .ok []
  , group_projects := fun _ => .ok []
  , projects_get := fun pid => if pid = 1 then .ok p1c6 else .err .getError
  , user_projects := .ok []
  , group_wikis := fun _ => .err .listError
  , project_wikis := fun _ => .err .listError
  , project_issues := fun _ => .err .getError
  , snippets_list := .ok [] }

/-- Claim C6 counterexample: a NotFoundError raised while listing project
1's issues is not caught — the whole discovery aborts with the error
instead of continuing with zero results. -/
theorem C6_issue_listing_aborts_run :
    get_gitlab_items issuesFailApi 3 [] [1] false false true false =
      some (.err (.api .getError)) := by
  decide

/-- Forge where project 1 exists, project 2 and 7 are gone, and every wiki
probe raises a list error. -/
def staleApi : GitlabApi :=
  { groups_get := fun _ => .err .getError
  , group_subgroups := fun _ => .ok []
  , group_projects := fun _ => .ok []
  , projects_get := fun pid => if pid = 1 then .ok p1c6 else .err .getError
  , user_projects := .ok []
  , group_wikis := fun _ => .err .listError
  , project_wikis := fun _ => .err .listError
  , project_issues := fun _ => .ok []
  , snippets_list := .ok [] }

/-- Claim C6 as amended: a NotFoundError from getting a project by explicit
ID after at least one successful get is caught (the stale loop variable
re-adds the previous project, leaving the map unchanged), and a ListError
from a wiki probe is caught with zero results, so discovery completes; but
a failing get on the very first explicit project ID aborts the run through
the unbound loop variable, and issue-listing errors abort the run (see the
counterexample). -/
theorem C6_amended_error_handling :
    get_gitlab_items staleApi 3 [] [1, 2] false true false false =
        some (.ok { groups := [], projects := [(1, p1c6)], wikis := []
                  , issues := [], snippets := [] })
      ∧ get_gitlab_items staleApi 3 [] [7] false false false false =
          some (.err .nameError) := by
  constructor
  · decide
  · decide

/-! ## Claim C9 -/

def p42 : ProjectInfo := { id := 42, name := "answer" }

def dedupGroup : GroupInfo := { id := 1, name := "grp" }

/-- Forge where group 1 owns project 42 and project 42 is also requested by
explicit ID. -/
def dedupApi : GitlabApi :=
  { groups_get := fun _ => .ok dedupGroup
  , group_subgroups := fun _ => .ok []
  , group_projects := fun gid => if gid = 1 then .ok [p42] else .ok []
  , projects_get := fun pid => if pid = 42 then .ok p42 else .err .getError
  , user_projects := .ok []
  , group_wikis := fun _ => .err .listError
  , project_wikis := fun _ => .err .listError
  , project_issues := fun _ => .ok []
  , snippets_list := .ok [] }

/-- Claim C9 (confirmed): keyed insertion into the discovery map is an
idempotent union — updating the same key twice with the same project equals
one update — and a project reachable both through its parent group and by
explicit ID ends up as exactly one entry of the resulting project map. -/
theorem C9_discovery_dedups_projects :
    (∀ (d : Dict Int ProjectInfo) (k : Int) (v : ProjectInfo),
        dictUpdate (dictUpdate d k v) k v = dictUpdate d k v)
      ∧ get_gitlab_items dedupApi 3 [1] [42] false false false false =
          some (.ok { groups := [(1, dedupGroup)], projects := [(42, p42)]
                    , wikis := [], issues := [], snippets := [] })
      ∧ dictCountKey ([(42, p42)] : Dict Int ProjectInfo) 42 = 1 := by
  refine ⟨?_, by decide, by decide⟩
  intro d k v
  induction d with
  | nil => simp [dictUpdate]
  | cons kv rest ih =>
    by_cases h : kv.1 = k
    · simp [dictUpdate, h]
    · simp [dictUpdate, h, ih]

/-! ## gitlab/download.py: JSON-like values and `find_matches` (lines 94-121)

The nested values `find_matches` walks are mappings, sequences, strings and
scalar leaves.  The regex application on a string leaf is abstracted as a
`findall : String → List String` parameter; `uploadsFindall` below
implements `re.findall` for the one pattern the source uses.  The `found`
parameter is the shared accumulator list the Python function extends.

The function is decorated `@beartype` with the parameter annotation
`obj: None | str | list | dict[str, Any]` (lines 94-95).  beartype wraps
the function and checks every call's `obj` argument against that union —
including the recursive calls `find_matches(value, pattern, found)` — and
raises `BeartypeCallHintParamViolation` on a mismatch.  Numbers and
booleans are not in the union, so recursion into such a leaf raises
instead of reaching the body's fall-through return, which is reachable
only for `None`.  (The `found` argument of a recursive call is always a
`list` of `str` by then, so it always passes its check, and unpassed
defaults are not checked.) -/

mutual
inductive Json where
  | null
  | boolean (b : Bool)
  | number (n : Int)
  | str (s : String)
  | arr (items : JsonList)
  | obj (fields : JsonObj)

inductive JsonList where
  | nil
  | cons (hd : Json) (tl : JsonList)

inductive JsonObj where
  | nil
  | cons (key : String) (val : Json) (tl : JsonObj)
end

inductive BeartypeViolation where
  | paramViolation
deriving DecidableEq

mutual
/-- `find_matches` (download.py lines 94-121) behind its `@beartype`
wrapper: a number or boolean argument raises the parameter violation
before the body runs; otherwise the body recurses into mapping values and
sequence items (propagating any violation raised below), applies the
pattern to a string, and returns the accumulator unchanged for `None`. -/
def find_matches (findall : String → List String) :
    Json → List String → Res BeartypeViolation (List String)
  | .number _, _ => .err .paramViolation
  | .boolean _, _ => .err .paramViolation
  | .obj fields, found => find_matches_obj findall fields found
  | .arr items, found => find_matches_list findall items found
  | .str s, found => .ok (found ++ findall s)
  | .null, found => .ok found

def find_matches_list (findall : String → List String) :
    JsonList → List String → Res BeartypeViolation (List String)
  | .nil, found => .ok found
  | .cons v tl, found =>
    match find_matches findall v found with
    | .err e => .err e
    | .ok found2 => find_matches_list findall tl found2

def find_matches_obj (findall : String → List String) :
    JsonObj → List String → Res BeartypeViolation (List String)
  | .nil, found => .ok found
  | .cons _ v tl, found =>
    match find_matches findall v found with
    | .err e => .err e
    | .ok found2 => find_matches_obj findall tl found2
end

/-! ## gitlab/download.py: the upload-reference pattern (line 19)

`FILE_UPLOAD_PATTERN` is the regex `uploads` `/` followed by one or more
characters from the class letters, digits, `/`, `_`, `.`, `-`.
`uploadsFindall` implements `re.findall` for it: a left-to-right scan
emitting maximal non-overlapping matches.  The scan consumes at least one
character per step, so the fuel `length + 1` never runs out. -/

def isUploadChar (c : Char) : Bool :=
  c.isAlpha || c.isDigit || c == '/' || c == '_' || c == '.' || c == '-'

def uploadsMarker : List Char := "uploads/".toList

def findallGo : Nat → List Char → List String
  | 0, _ => []
  | _ + 1, [] => []
  | fuel + 1, c :: rest =>
    if uploadsMarker.isPrefixOf (c :: rest) then
      let after := (c :: rest).drop uploadsMarker.length
      let run := after.takeWhile isUploadChar
      if run.isEmpty then findallGo fuel rest
      else String.mk (uploadsMarker ++ run) :: findallGo fuel (after.drop run.length)
    else findallGo fuel rest

def uploadsFindall (s : String) : List String :=
  findallGo (s.toList.length + 1) s.toList

/-! ## Claim C5 -/

/-- Nested structure with scalar leaves only: `{"a": {"b": [1, null, true]},
"c": []}`. -/
def noStringsValue : Json :=
  .obj (.cons "a" (.obj (.cons "b"
      (.arr (.cons (.number 1) (.cons .null (.cons (.boolean true) .nil)))) .nil))
    (.cons "c" (.arr .nil) .nil))

/-- The fixture of the claim: `{"a": ["uploads/x.png", 5, null]}`. -/
def uploadsValue : Json :=
  .obj (.cons "a"
    (.arr (.cons (.str "uploads/x.png") (.cons (.number 5) (.cons .null .nil)))) .nil)

/-- Claim C5 (code bug): on the claim's own fixture the walk first collects
the match from the string leaf, then the recursive call on the number leaf
5 hits the `@beartype` parameter check and raises, so the call aborts with
`BeartypeCallHintParamViolation` instead of returning the single match;
the nested structure without strings likewise raises at its number leaf
instead of returning the empty list.  The body's own fall-through branch
and its docstring (a walk over JSON-like objects) show the intent the
claim states; the annotation omitting numbers and booleans is the slip. -/
theorem C5_find_matches_beartype_code_bug :
    find_matches uploadsFindall uploadsValue [] = .err .paramViolation
      ∧ find_matches uploadsFindall noStringsValue [] = .err .paramViolation := by
  decide

/-! ## gitlab/download.py: wiki attachment URL rewriting (lines 124-154)

`get_wiki_attachment_urls` gathers the matches over all wiki page contents
and rewrites each: empty matches are skipped; a match containing the
upload-namespace marker (the string "uploads" slash dash) has the marker
segment (with its trailing slash) replaced by the wiki-scoped upload
segment, using Python `str.replace` semantics — all occurrences, modelled
by `pyReplace` — and the result is prefixed with the object's web URL plus
the wiki path segment, exactly as in the source strings below. -/

def listContainsPy : List Char → List Char → Bool
  | [], pat => pat.isEmpty
  | s@(_ :: rest), pat => pat.isPrefixOf s || listContainsPy rest pat

def replaceGo (pat rep : List Char) : Nat → List Char → List Char
  | 0, s => s
  | _ + 1, [] => []
  | fuel + 1, c :: rest =>
    if pat.isPrefixOf (c :: rest) && !pat.isEmpty then
      rep ++ replaceGo pat rep fuel ((c :: rest).drop pat.length)
    else c :: replaceGo pat rep fuel rest

/-- Python `s.replace(pat, rep)` for a nonempty `pat`. -/
def pyReplace (s pat rep : String) : String :=
  String.mk (replaceGo pat.toList rep.toList (s.toList.length + 1) s.toList)

def wiki_rewrite_urls (web_url : String) : List String → List String
  | [] => []
  | uri :: rest =>
    if uri = "" then wiki_rewrite_urls web_url rest
    else
      let uri2 :=
        if listContainsPy uri.toList "uploads/-".toList then
          pyReplace uri "uploads/-/" "-/wikis/uploads/"
        else uri
      (web_url ++ "/-/wikis/" ++ uri2) :: wiki_rewrite_urls web_url rest

/-- `get_wiki_attachment_urls` (download.py lines 124-154) over the page
contents the wiki API returns. -/
def get_wiki_attachment_urls (findall : String → List String) (web_url : String)
    (pageContents : List String) : List String :=
  wiki_rewrite_urls web_url (pageContents.foldl (fun acc c => acc ++ findall c) [])

/-! ## Claim C7 -/

/-- Claim C7 (confirmed): for a wiki object whose web URL points at
forge.example org proj, and the raw match "uploads", dash, "abc",
"file.png" joined by slashes, the marker rewrite plus the wiki path
prefixing produce exactly the claimed URL with its doubled wiki segment. -/
theorem C7_wiki_attachment_url_rewrite :
    get_wiki_attachment_urls uploadsFindall "https://forge.example/org/proj"
        ["uploads/-/abc/file.png"]
      = ["https://forge.example/org/proj/-/wikis/-/wikis/uploads/abc/file.png"] := by
  decide

/-! ## entrypoints.py: `main` (lines 40-55)

The run ends in one of three ways: the backup routine returns (per-item
failures are caught inside it, so this covers partially failed backups), a
`KeyboardInterrupt` reaches `main`, or another exception does.  `main`
maps the interrupt to `exit(0)` (line 52) and an unhandled exception to
`exit(1)` (line 55); a normal return exits the interpreter with 0. -/

inductive RunOutcome where
  | completed (allItemsSucceeded : Bool)
  | interrupted
  | raisedException
deriving DecidableEq

def main_exit_code : RunOutcome → Nat
  | .completed _ => 0
  | .interrupted => 0
  | .raisedException => 1

/-! ## Claim C8 -/

/-- Claim C8 counterexample: a user interrupt reaching the top level exits
with code 0, not the claimed 1. -/
theorem C8_interrupt_exit_code_counterexample :
    main_exit_code RunOutcome.interrupted = 0 ∧ main_exit_code RunOutcome.interrupted ≠ 1 := by
  decide

/-- Claim C8 as amended: the exit code is 0 for normal completion (with or
without per-item failures) and also 0 for a user interrupt; it is 1 only
for an unhandled top-level exception. -/
theorem C8_exit_codes :
    (∀ b, main_exit_code (RunOutcome.completed b) = 0)
      ∧ main_exit_code RunOutcome.interrupted = 0
      ∧ main_exit_code RunOutcome.raisedException = 1 := by
  refine ⟨fun b => rfl, rfl, rfl⟩

end Foxysafe
